import Mathlib

/-!
Shallow embedding of the behavior-scheme activation subsystem of the
repository (src/engine/core/utils/scheme/scheme_logic.ts).

Section and scheme identifiers are strings / a closed enumeration; the
simulation registry entry for an actor (`IRegistryObjectState`) and the
offline descriptor (`IRegistryOfflineState`) are explicit records threaded
through the functions.  Side effects performed through collaborator modules
(scheme resets, scheme activation, event emission, repositioning, ...) are
recorded as an explicit trace of `Effect` values in program order, and the
engine assertions become explicit error outcomes.  Opaque consumed services
(condition-list evaluation, scheme-name derivation, terrain job lookup,
config override computation) are parameters of the model, exactly as the
spec treats them.
-/

namespace SchemeLogic

/-- Logic section identifiers (TSection in the source). -/
abbrev TSection := String

/-- Names (TName in the source), e.g. smart terrain names. -/
abbrev TName := String

/-- The NIL string sentinel from engine/lib/constants/words used by the
source to denote the explicit null section. -/
def NIL : TSection := "nil"

/-- Scheme identifiers referenced by scheme_logic.ts (EScheme). -/
inductive EScheme where
  | NIL
  | MEET
  | HELP_WOUNDED
  | CORPSE_DETECTION
  | ABUSE
  | WOUNDED
  | DEATH
  | DANGER
  | GATHER_ITEMS
  | COMBAT_IGNORE
  | HEAR
  | COMBAT
  | HIT
  | MOB_COMBAT
  | MOB_DEATH
  | PH_ON_HIT
  | REACH_TASK
  deriving DecidableEq

/-- Archetype of an object (ESchemeType in the source). -/
inductive ESchemeType where
  | STALKER
  | MONSTER
  | OBJECT
  | HELICOPTER
  deriving DecidableEq

/-- Ini configuration of an object.  `C` is the opaque type of parsed
condition lists; `activeField sec` is the parsed condition list of the
`active` field of section `sec` (readIniConditionList), `stringField sec f`
is the non-required string field `f` of section `sec` (readIniString with
required = false). -/
structure IniFile (C : Type) where
  sections : List TSection
  activeField : TSection → Option C
  stringField : TSection → String → Option TSection

/-- Whether a section exists in the ini file (ini.section_exist). -/
def IniFile.section_exist {C : Type} (ini : IniFile C) (s : TSection) : Bool :=
  ini.sections.contains s

/-- Offline descriptor of an object (IRegistryOfflineState), holding the
recorded active section to retry on online switch. -/
structure IRegistryOfflineState where
  activeSection : Option TSection
  deriving DecidableEq

/-- Fatal assertion raised by getSectionToActivate: the `active` field has
no conditionless else clause. -/
inductive SectionError where
  | noElseClause
  deriving DecidableEq

/-- Evaluation of the `active` condition-list field of a section
(lines 81-92 of scheme_logic.ts): when the field is present, pick a section
from its condition list (asserting on a missing else clause), otherwise
yield NIL. -/
def readActiveSection {C : Type} (ini : IniFile C) (pick : C → Option TSection)
    (sec : TSection) : Except SectionError TSection :=
  match ini.activeField sec with
  | some cond =>
    match pick cond with
    | some picked => Except.ok picked
    | none => Except.error SectionError.noElseClause
  | none => Except.ok NIL

/-- getSectionToActivate: determine which section to activate for an object.
`pick` is the opaque pickSectionFromCondList evaluation; the offline
descriptor is threaded explicitly (the source mutates it in place).  The
result is the resolved section (or the no-else-clause assertion) together
with the descriptor after the call. -/
def getSectionToActivate {C : Type} (ini : IniFile C) (pick : C → Option TSection)
    (offlineState : Option IRegistryOfflineState) (sec : TSection) :
    Except SectionError TSection × Option IRegistryOfflineState :=
  if ini.section_exist sec then
    match offlineState with
    | some offline =>
      match offline.activeSection with
      | some sectionToRetry =>
        let consumed : Option IRegistryOfflineState := some { offline with activeSection := none }
        if ini.section_exist sectionToRetry then
          (Except.ok sectionToRetry, consumed)
        else
          (readActiveSection ini pick sec, consumed)
      | none => (readActiveSection ini pick sec, offlineState)
    | none => (readActiveSection ini pick sec, offlineState)
  else
    (Except.ok NIL, offlineState)

/-- Overrides computed by getObjectConfigOverrides (opaque to this core):
summarised by the section they were resolved from. -/
structure IObjectConfigOverrides where
  sourceSection : TSection
  deriving DecidableEq

/-- Registry state of an object (IRegistryObjectState), restricted to the
fields read or written by scheme_logic.ts. -/
structure IRegistryObjectState where
  schemeType : ESchemeType
  activeSection : Option TSection
  activeScheme : Option EScheme
  overrides : Option IObjectConfigOverrides
  activationTime : Nat
  activationGameTime : Nat
  deriving DecidableEq

/-- Observable side effects of the activation subsystem, recorded in program
order. -/
inductive Effect where
  | resetScheme (generic : EScheme) (scheme : EScheme) (sec : TSection)
  | updateMapSpot (scheme : EScheme) (sec : TSection)
  | setIgnoreThreshold (scheme : EScheme) (sec : TSection)
  | setInvulnerability
  | setGroup (sec : TSection)
  | setTakeItemsState (scheme : EScheme) (sec : TSection)
  | setCanSelectWeaponState (scheme : EScheme) (sec : TSection)
  | activateRestrictions (sec : TSection)
  | releaseMonster
  | setManualInvisibility (enabled : Bool)
  | clearUseCallback
  | setNonscriptUsable (enabled : Bool)
  | activateScheme (scheme : EScheme) (sec : TSection) (smartTerrainName : Option TName)
  | sendToVertex
  | emitActivation (scheme : EScheme) (isLoading : Bool)
  | activateBase (scheme : EScheme) (sec : Option TSection)
  | setInfo (sec : TSection)
  deriving DecidableEq

/-- Whether an effect is the scheme activation event emission
(emitSchemeEvent with ESchemeEvent.ACTIVATE). -/
def Effect.isEmit : Effect → Bool
  | Effect.emitActivation _ _ => true
  | _ => false

/-- Whether an effect is the invocation of the target scheme's activate
routine (schemeImplementation.activate). -/
def Effect.isSchemeActivate : Effect → Bool
  | Effect.activateScheme _ _ _ => true
  | _ => false

/-- Whether an effect belongs to the generic scheme layer reset
(resetObjectGenericSchemesOnSectionSwitch). -/
def Effect.isGenericLayer : Effect → Bool
  | Effect.activateScheme _ _ _ => false
  | Effect.emitActivation _ _ => false
  | Effect.sendToVertex => false
  | Effect.activateBase _ _ => false
  | Effect.setInfo _ => false
  | _ => true

/-- resetObjectGenericSchemesOnSectionSwitch: archetype-specific reset of
the generic scheme layer, as the ordered trace of its side effects.
`isBloodsucker` models the object.clsid() === clsid.bloodsucker_s check. -/
def resetObjectGenericSchemesOnSectionSwitch (schemeType : ESchemeType)
    (isBloodsucker : Bool) (scheme : EScheme) (sec : TSection) : List Effect :=
  match schemeType with
  | ESchemeType.STALKER =>
    [Effect.resetScheme EScheme.MEET scheme sec,
     Effect.resetScheme EScheme.HELP_WOUNDED scheme sec,
     Effect.resetScheme EScheme.CORPSE_DETECTION scheme sec,
     Effect.resetScheme EScheme.ABUSE scheme sec,
     Effect.resetScheme EScheme.WOUNDED scheme sec,
     Effect.resetScheme EScheme.DEATH scheme sec,
     Effect.resetScheme EScheme.DANGER scheme sec,
     Effect.resetScheme EScheme.GATHER_ITEMS scheme sec,
     Effect.resetScheme EScheme.COMBAT_IGNORE scheme sec,
     Effect.resetScheme EScheme.HEAR scheme sec,
     Effect.updateMapSpot scheme sec,
     Effect.setIgnoreThreshold scheme sec,
     Effect.setInvulnerability,
     Effect.setGroup sec,
     Effect.setTakeItemsState scheme sec,
     Effect.setCanSelectWeaponState scheme sec,
     Effect.activateRestrictions sec]
  | ESchemeType.MONSTER =>
    [Effect.releaseMonster]
      ++ (if isBloodsucker then [Effect.setManualInvisibility (decide (scheme ≠ EScheme.NIL))] else [])
      ++ [Effect.resetScheme EScheme.COMBAT_IGNORE scheme sec,
          Effect.resetScheme EScheme.HEAR scheme sec,
          Effect.setInvulnerability,
          Effect.activateRestrictions sec]
  | ESchemeType.OBJECT =>
    [Effect.clearUseCallback, Effect.setNonscriptUsable true]
  | ESchemeType.HELICOPTER => []

/-- Smart terrain binding of an object: the section of the terrain job
picked for the object (getTerrainJobByObjectId(...)?.section). -/
structure TerrainDescriptor where
  jobSection : Option TSection
  deriving DecidableEq

/-- Environment of collaborator services consumed by
activateSchemeBySection: current times, the object's terrain binding
(getObjectTerrain), scheme-name derivation (getSchemeFromSection), the
scheme registry (registry.schemes), and the bloodsucker class check. -/
structure SchemeEnv where
  timeGlobal : Nat
  gameTime : Nat
  terrain : Option TerrainDescriptor
  schemeFromSection : TSection → Option EScheme
  registeredSchemes : EScheme → Bool
  isBloodsucker : Bool

/-- Fatal assertions of activateSchemeBySection, in source order:
line 140 (no smart terrain when section is null), line 147 (no scheme
derivable from section), line 148 (section not declared in ini), line 156
(scheme not registered). -/
inductive ActivateError where
  | notInSmartTerrain
  | unresolvedScheme
  | sectionNotDeclared
  | schemeNotRegistered
  deriving DecidableEq

/-- Result of a call to activateSchemeBySection: the registry state as of
return (or as of the failing assertion), the trace of side effects
performed, and the assertion raised if any. -/
structure ActivateResult where
  state : IRegistryObjectState
  events : List Effect
  error : Option ActivateError
  deriving DecidableEq

/-- Timestamp stamping at the top of activateSchemeBySection (lines
120-123): on a non-loading call, activationTime and activationGameTime are
set to the current times. -/
def stampActivationTime (env : SchemeEnv) (st : IRegistryObjectState)
    (isLoading : Bool) : IRegistryObjectState :=
  if isLoading then st
  else { st with activationTime := env.timeGlobal, activationGameTime := env.gameTime }

/-- Tail of activateSchemeBySection once a concrete (non-NIL-sentinel)
section is in hand (lines 145-169): derive the scheme, check the section
exists, recompute overrides, reset the generic layer, invoke the scheme's
activate, commit activeSection/activeScheme, reposition stalkers, emit the
activation event. -/
def activateResolvedSection {C : Type} (env : SchemeEnv) (ini : IniFile C)
    (st : IRegistryObjectState) (sec : TSection)
    (smartTerrainName : Option TName) (isLoading : Bool) : ActivateResult :=
  match env.schemeFromSection sec with
  | none => { state := st, events := [], error := some ActivateError.unresolvedScheme }
  | some scheme =>
    if ini.section_exist sec then
      let st2 : IRegistryObjectState := { st with overrides := some { sourceSection := sec } }
      let resetEvents : List Effect :=
        resetObjectGenericSchemesOnSectionSwitch st2.schemeType env.isBloodsucker scheme sec
      if env.registeredSchemes scheme then
        let st3 : IRegistryObjectState :=
          { st2 with activeSection := some sec, activeScheme := some scheme }
        { state := st3,
          events := resetEvents
            ++ [Effect.activateScheme scheme sec smartTerrainName]
            ++ (if st3.schemeType = ESchemeType.STALKER then [Effect.sendToVertex] else [])
            ++ [Effect.emitActivation scheme isLoading],
          error := none }
      else
        { state := st2, events := resetEvents, error := some ActivateError.schemeNotRegistered }
    else
      { state := st, events := [], error := some ActivateError.sectionNotDeclared }

/-- activateSchemeBySection: activate a logics section for an object.  The
section argument distinguishes the NIL string sentinel (deactivate) from
true absence (null: derive the section from the smart terrain job). -/
def activateSchemeBySection {C : Type} (env : SchemeEnv) (ini : IniFile C)
    (st : IRegistryObjectState) (sec : Option TSection)
    (smartTerrainName : Option TName) (isLoading : Bool) : ActivateResult :=
  let st1 : IRegistryObjectState := stampActivationTime env st isLoading
  match sec with
  | some s =>
    if s = NIL then
      { state := { st1 with overrides := none, activeSection := none, activeScheme := none },
        events := resetObjectGenericSchemesOnSectionSwitch st1.schemeType env.isBloodsucker
          EScheme.NIL NIL,
        error := none }
    else
      activateResolvedSection env ini st1 s smartTerrainName isLoading
  | none =>
    match env.terrain with
    | none => { state := st1, events := [], error := some ActivateError.notInSmartTerrain }
    | some terrain =>
      match terrain.jobSection with
      | some jobSec => activateResolvedSection env ini st1 jobSec smartTerrainName isLoading
      | none => { state := st1, events := [], error := some ActivateError.unresolvedScheme }

/-- Fatal outcome of the base-scheme enable step when a structurally
required configuration slot is missing. -/
inductive EnableError where
  | requiredSlotMissing (field : String)
  deriving DecidableEq

/-- Modelled from the spec: the concrete scheme implementations invoked by
enableObjectBaseSchemes (registry.schemes.get(...).activate) are not part of
the sources under study; per the spec, failure to find a named sub-section
in configuration is fatal for structurally required slots, so activating a
required slot with a missing configured section halts with
requiredSlotMissing. -/
def activateRequiredSlot (scheme : EScheme) (field : String)
    (sec : Option TSection) : Except EnableError Effect :=
  match sec with
  | some s => Except.ok (Effect.activateBase scheme (some s))
  | none => Except.error (EnableError.requiredSlotMissing field)

/-- enableObjectBaseSchemes: enable the permanent delegated base schemes of
an object by archetype, as the ordered trace of the activate calls
performed.  Optional slots (info, on_hit; and every slot of the monster,
object and helicopter branches) are skipped when not configured; required
stalker slots (on_combat, wounded, meet, on_death) go through
activateRequiredSlot. -/
def enableObjectBaseSchemes {C : Type} (ini : IniFile C)
    (schemeType : ESchemeType) (logicsSection : TSection) :
    Except EnableError (List Effect) :=
  match schemeType with
  | ESchemeType.STALKER => do
    let combatActivate ← activateRequiredSlot EScheme.COMBAT "on_combat"
      (ini.stringField logicsSection "on_combat")
    let infoEvents : List Effect :=
      match ini.stringField logicsSection "info" with
      | some infoSection => [Effect.setInfo infoSection]
      | none => []
    let hitEvents : List Effect :=
      match ini.stringField logicsSection "on_hit" with
      | some hitSection => [Effect.activateBase EScheme.HIT (some hitSection)]
      | none => []
    let woundedActivate ← activateRequiredSlot EScheme.WOUNDED "wounded"
      (ini.stringField logicsSection "wounded")
    let meetActivate ← activateRequiredSlot EScheme.MEET "meet"
      (ini.stringField logicsSection "meet")
    let deathActivate ← activateRequiredSlot EScheme.DEATH "on_death"
      (ini.stringField logicsSection "on_death")
    Except.ok
      ([Effect.activateBase EScheme.DANGER (some "danger"),
        Effect.activateBase EScheme.GATHER_ITEMS (some "gather_items"),
        combatActivate,
        Effect.setInvulnerability]
        ++ infoEvents
        ++ hitEvents
        ++ [woundedActivate,
            Effect.activateBase EScheme.ABUSE (some logicsSection),
            Effect.activateBase EScheme.HELP_WOUNDED none,
            Effect.activateBase EScheme.CORPSE_DETECTION none,
            meetActivate,
            deathActivate,
            Effect.activateBase EScheme.COMBAT_IGNORE none,
            Effect.activateBase EScheme.REACH_TASK none])
  | ESchemeType.MONSTER =>
    let combatEvents : List Effect :=
      match ini.stringField logicsSection "on_combat" with
      | some s => [Effect.activateBase EScheme.MOB_COMBAT (some s)]
      | none => []
    let deathEvents : List Effect :=
      match ini.stringField logicsSection "on_death" with
      | some s => [Effect.activateBase EScheme.MOB_DEATH (some s)]
      | none => []
    let hitEvents : List Effect :=
      match ini.stringField logicsSection "on_hit" with
      | some s => [Effect.activateBase EScheme.HIT (some s)]
      | none => []
    Except.ok (combatEvents ++ deathEvents ++ [Effect.setInvulnerability] ++ hitEvents
      ++ [Effect.activateBase EScheme.COMBAT_IGNORE none])
  | ESchemeType.OBJECT =>
    Except.ok
      (match ini.stringField logicsSection "on_hit" with
       | some s => [Effect.activateBase EScheme.PH_ON_HIT (some s)]
       | none => [])
  | ESchemeType.HELICOPTER =>
    Except.ok
      (match ini.stringField logicsSection "on_hit" with
       | some s => [Effect.activateBase EScheme.HIT (some s)]
       | none => [])

/-- Every effect of the generic-layer reset is a generic-layer effect: the
reset never invokes a scheme's activate, never emits the activation event,
and never repositions the object. -/
theorem resetGeneric_all_genericLayer (schemeType : ESchemeType)
    (isBloodsucker : Bool) (scheme : EScheme) (sec : TSection) :
    (resetObjectGenericSchemesOnSectionSwitch schemeType isBloodsucker scheme sec).all
      Effect.isGenericLayer = true := by
  cases schemeType <;> cases isBloodsucker <;>
    simp [resetObjectGenericSchemesOnSectionSwitch, Effect.isGenericLayer, List.all]

/-- A generic-layer effect is not the activation event emission. -/
theorem genericLayer_not_emit (e : Effect) (h : e.isGenericLayer = true) :
    e.isEmit = false := by
  cases e <;> simp_all [Effect.isGenericLayer, Effect.isEmit]

/-- The generic-layer reset never emits the activation event. -/
theorem resetGeneric_no_emit (schemeType : ESchemeType) (isBloodsucker : Bool)
    (scheme : EScheme) (sec : TSection) :
    (resetObjectGenericSchemesOnSectionSwitch schemeType isBloodsucker scheme sec).all
      (fun e => !e.isEmit) = true := by
  cases schemeType <;> cases isBloodsucker <;>
    simp [resetObjectGenericSchemesOnSectionSwitch, Effect.isEmit, List.all]

/-- Timestamp stamping leaves every field except the two timestamps
unchanged. -/
theorem stampActivationTime_preserves (env : SchemeEnv) (st : IRegistryObjectState)
    (isLoading : Bool) :
    (stampActivationTime env st isLoading).schemeType = st.schemeType ∧
    (stampActivationTime env st isLoading).activeSection = st.activeSection ∧
    (stampActivationTime env st isLoading).activeScheme = st.activeScheme ∧
    (stampActivationTime env st isLoading).overrides = st.overrides := by
  cases isLoading <;> simp [stampActivationTime]

/-- Timestamp fields after stamping: unchanged on a loading call, the
current times otherwise. -/
theorem stampActivationTime_times (env : SchemeEnv) (st : IRegistryObjectState)
    (isLoading : Bool) :
    (stampActivationTime env st isLoading).activationTime
        = (if isLoading then st.activationTime else env.timeGlobal) ∧
    (stampActivationTime env st isLoading).activationGameTime
        = (if isLoading then st.activationGameTime else env.gameTime) := by
  cases isLoading <;> simp [stampActivationTime]

/-! Concrete fixtures used by the witness theorems. -/

/-- A trivial condition-list evaluator over a unit condlist type. -/
def pickNone : Unit → Option TSection := fun _ => none

/-- A small ini file with two plain sections and no `active` fields. -/
def iniA : IniFile Unit :=
  { sections := ["patrol", "guard"],
    activeField := fun _ => none,
    stringField := fun _ _ => none }

/-- An environment with no terrain binding, schemes registered, and
`patrol` mapping to the MEET scheme. -/
def envA : SchemeEnv :=
  { timeGlobal := 100,
    gameTime := 200,
    terrain := none,
    schemeFromSection := fun s => if s = "patrol" then some EScheme.MEET else none,
    registeredSchemes := fun _ => true,
    isBloodsucker := false }

/-- Same environment as envA, but bound to a terrain whose job section is
`patrol`. -/
def envB : SchemeEnv :=
  { envA with terrain := some { jobSection := some "patrol" } }

/-- A stalker-archetype registry state with no active section. -/
def stA : IRegistryObjectState :=
  { schemeType := ESchemeType.STALKER,
    activeSection := none,
    activeScheme := none,
    overrides := none,
    activationTime := 0,
    activationGameTime := 0 }

/-- stA already bound to the `patrol` section. -/
def stB : IRegistryObjectState :=
  { stA with activeSection := some "patrol", activeScheme := some EScheme.MEET }

/-- An ini file with only the `smart_terrain_job_guard` section and no
`active` field anywhere. -/
def iniC : IniFile Unit :=
  { sections := ["smart_terrain_job_guard"],
    activeField := fun _ => none,
    stringField := fun _ _ => none }

/-- C3: for an actor with a recorded offline section S, when the desired
section exists in the ini, resolution returns S whenever S still exists in
the configuration (preferred over the config-declared `active` default),
and otherwise coincides with the resolution that would be performed with no
offline record at all (falling through to the config default without
raising an error). -/
theorem offline_section_preferred_or_falls_through {C : Type} (ini : IniFile C)
    (pick : C → Option TSection) (S d : TSection)
    (h : ini.section_exist d = true) :
    (getSectionToActivate ini pick (some { activeSection := some S }) d).1
      = (if ini.section_exist S then Except.ok S
         else (getSectionToActivate ini pick none d).1) := by
  simp only [getSectionToActivate, h, if_true]
  split <;> simp_all

/-- Witness for C3: in iniA, an actor with recorded offline section `guard`
resolving desired section `patrol` gets `guard` back. -/
theorem offline_section_preferred_witness :
    (getSectionToActivate iniA pickNone (some { activeSection := some "guard" }) "patrol").1
      = Except.ok "guard" := by
  have h := offline_section_preferred_or_falls_through iniA pickNone "guard" "patrol" (by decide)
  simpa using h

/-- C8: whenever the desired section exists in the ini and the actor has an
offline record with a recorded section, resolution consumes the record: the
offline descriptor afterwards has no recorded section, both when the
recorded section still exists in the configuration and when resolution
falls through to the config default. -/
theorem offline_section_consumed_on_read {C : Type} (ini : IniFile C)
    (pick : C → Option TSection) (S d : TSection)
    (h : ini.section_exist d = true) :
    (getSectionToActivate ini pick (some { activeSection := some S }) d).2
      = some { activeSection := none } := by
  simp only [getSectionToActivate, h, if_true]
  split <;> simp

/-- Witness for C8: the offline record is cleared even when the recorded
section (here `gone`) no longer exists in iniA. -/
theorem offline_section_consumed_witness :
    (getSectionToActivate iniA pickNone (some { activeSection := some "gone" }) "patrol").2
      = some { activeSection := none } :=
  offline_section_consumed_on_read iniA pickNone "gone" "patrol" (by decide)

/-- C10: when the desired section does not exist in the ini file,
getSectionToActivate returns the NIL sentinel immediately and the offline
record, whatever it is, is neither consulted nor consumed. -/
theorem missing_section_returns_nil_keeps_offline {C : Type} (ini : IniFile C)
    (pick : C → Option TSection) (offlineState : Option IRegistryOfflineState)
    (d : TSection) (h : ini.section_exist d = false) :
    getSectionToActivate ini pick offlineState d = (Except.ok NIL, offlineState) := by
  simp [getSectionToActivate, h]

/-- Witness for C10: resolving a section absent from iniA leaves a recorded
offline section in place. -/
theorem missing_section_returns_nil_witness :
    getSectionToActivate iniA pickNone (some { activeSection := some "guard" }) "absent"
      = (Except.ok NIL, some { activeSection := some "guard" }) :=
  missing_section_returns_nil_keeps_offline iniA pickNone
    (some { activeSection := some "guard" }) "absent" (by decide)

/-- Shape of a successful activateResolvedSection call: the scheme is
derived from the section, the section exists and the scheme is registered,
activeSection/activeScheme are committed, overrides are recomputed for the
new section, and the trace is the generic reset followed by the scheme's
activate, the stalker repositioning, and the activation event. -/
theorem activateResolvedSection_ok_shape {C : Type} (env : SchemeEnv) (ini : IniFile C)
    (st : IRegistryObjectState) (sec : TSection) (smartTerrainName : Option TName)
    (isLoading : Bool)
    (h : (activateResolvedSection env ini st sec smartTerrainName isLoading).error = none) :
    ∃ scheme,
      env.schemeFromSection sec = some scheme ∧
      ini.section_exist sec = true ∧
      env.registeredSchemes scheme = true ∧
      (activateResolvedSection env ini st sec smartTerrainName isLoading).state
        = { st with overrides := some { sourceSection := sec },
                    activeSection := some sec, activeScheme := some scheme } ∧
      (activateResolvedSection env ini st sec smartTerrainName isLoading).events
        = resetObjectGenericSchemesOnSectionSwitch st.schemeType env.isBloodsucker scheme sec
          ++ [Effect.activateScheme scheme sec smartTerrainName]
          ++ (if st.schemeType = ESchemeType.STALKER then [Effect.sendToVertex] else [])
          ++ [Effect.emitActivation scheme isLoading] := by
  unfold activateResolvedSection at h ⊢
  cases hs : env.schemeFromSection sec with
  | none => simp [hs] at h
  | some scheme =>
    refine ⟨scheme, rfl, ?_⟩
    simp only [hs] at h ⊢
    by_cases hex : ini.section_exist sec = true
    · simp only [hex, if_true] at h ⊢
      by_cases hreg : env.registeredSchemes scheme = true
      · simp [hreg]
      · simp [hreg] at h
    · simp [hex] at h

/-- activateResolvedSection never touches the timestamp fields of the state
it is given. -/
theorem activateResolvedSection_preserves_times {C : Type} (env : SchemeEnv)
    (ini : IniFile C) (st : IRegistryObjectState) (sec : TSection)
    (smartTerrainName : Option TName) (isLoading : Bool) :
    (activateResolvedSection env ini st sec smartTerrainName isLoading).state.activationTime
        = st.activationTime ∧
    (activateResolvedSection env ini st sec smartTerrainName isLoading).state.activationGameTime
        = st.activationGameTime := by
  unfold activateResolvedSection
  cases env.schemeFromSection sec with
  | none => simp
  | some scheme =>
    by_cases hex : ini.section_exist sec = true
    · by_cases hreg : env.registeredSchemes scheme = true
      · simp [hex, hreg]
      · simp [hex, hreg]
    · simp [hex]

/-- C1: after every completed call to activateSchemeBySection (any section
argument, loading or not), activeSection is none if and only if
activeScheme is none: the null-section branch clears both and the non-null
branch sets both. -/
theorem active_section_iff_active_scheme {C : Type} (env : SchemeEnv) (ini : IniFile C)
    (st : IRegistryObjectState) (sec : Option TSection)
    (smartTerrainName : Option TName) (isLoading : Bool)
    (h : (activateSchemeBySection env ini st sec smartTerrainName isLoading).error = none) :
    ((activateSchemeBySection env ini st sec smartTerrainName isLoading).state.activeSection = none
      ↔ (activateSchemeBySection env ini st sec smartTerrainName isLoading).state.activeScheme = none) := by
  unfold activateSchemeBySection at h ⊢
  cases sec with
  | some s =>
    by_cases hnil : s = NIL
    · simp [hnil]
    · simp only [hnil, if_false] at h ⊢
      obtain ⟨scheme, _, _, _, hstate, _⟩ :=
        activateResolvedSection_ok_shape env ini _ s smartTerrainName isLoading h
      simp [hstate]
  | none =>
    cases ht : env.terrain with
    | none => simp [ht] at h
    | some terrain =>
      simp only [ht] at h ⊢
      cases hj : terrain.jobSection with
      | none => simp [hj] at h
      | some jobSec =>
        simp only [hj] at h ⊢
        obtain ⟨scheme, _, _, _, hstate, _⟩ :=
          activateResolvedSection_ok_shape env ini _ jobSec smartTerrainName isLoading h
        simp [hstate]

/-- Witness for C1: a completed non-null activation in the fixture leaves
both fields non-none. -/
theorem active_section_iff_active_scheme_witness :
    ((activateSchemeBySection envA iniA stA (some "patrol") none false).state.activeSection = none
      ↔ (activateSchemeBySection envA iniA stA (some "patrol") none false).state.activeScheme = none) :=
  active_section_iff_active_scheme envA iniA stA (some "patrol") none false (by decide)

/-- C2: a call with the NIL sentinel section completes without any fatal
assertion, clears overrides, resets the generic scheme layer with the NIL
scheme and NIL section, clears activeSection and activeScheme, and emits no
scheme activation event. -/
theorem nil_section_clears_and_emits_nothing {C : Type} (env : SchemeEnv) (ini : IniFile C)
    (st : IRegistryObjectState) (smartTerrainName : Option TName) (isLoading : Bool) :
    (activateSchemeBySection env ini st (some NIL) smartTerrainName isLoading).error = none ∧
    (activateSchemeBySection env ini st (some NIL) smartTerrainName isLoading).state.overrides = none ∧
    (activateSchemeBySection env ini st (some NIL) smartTerrainName isLoading).state.activeSection = none ∧
    (activateSchemeBySection env ini st (some NIL) smartTerrainName isLoading).state.activeScheme = none ∧
    (activateSchemeBySection env ini st (some NIL) smartTerrainName isLoading).events
      = resetObjectGenericSchemesOnSectionSwitch st.schemeType env.isBloodsucker EScheme.NIL NIL ∧
    (activateSchemeBySection env ini st (some NIL) smartTerrainName isLoading).events.all
      (fun e => !e.isEmit) = true := by
  have hst := stampActivationTime_preserves env st isLoading
  refine ⟨by simp [activateSchemeBySection], by simp [activateSchemeBySection],
    by simp [activateSchemeBySection], by simp [activateSchemeBySection], ?_, ?_⟩
  · simp [activateSchemeBySection, hst.1]
  · simp only [activateSchemeBySection]
    simp [hst.1, resetGeneric_no_emit]

/-- C6: activateSchemeBySection stamps activationTime and
activationGameTime with the current times exactly when the call is not a
loading/restoring call, and leaves both unchanged on a loading call — on
every path, completed or failing. -/
theorem activation_times_stamped_iff_not_loading {C : Type} (env : SchemeEnv)
    (ini : IniFile C) (st : IRegistryObjectState) (sec : Option TSection)
    (smartTerrainName : Option TName) (isLoading : Bool) :
    (activateSchemeBySection env ini st sec smartTerrainName isLoading).state.activationTime
        = (if isLoading then st.activationTime else env.timeGlobal) ∧
    (activateSchemeBySection env ini st sec smartTerrainName isLoading).state.activationGameTime
        = (if isLoading then st.activationGameTime else env.gameTime) := by
  have htimes := stampActivationTime_times env st isLoading
  unfold activateSchemeBySection
  cases sec with
  | some s =>
    by_cases hnil : s = NIL
    · simp [hnil, htimes.1, htimes.2]
    · have hpres := activateResolvedSection_preserves_times env ini
        (stampActivationTime env st isLoading) s smartTerrainName isLoading
      simp [hnil, hpres.1, hpres.2, htimes.1, htimes.2]
  | none =>
    cases ht : env.terrain with
    | none => simp [ht, htimes.1, htimes.2]
    | some terrain =>
      cases hj : terrain.jobSection with
      | none => simp [ht, hj, htimes.1, htimes.2]
      | some jobSec =>
        have hpres := activateResolvedSection_preserves_times env ini
          (stampActivationTime env st isLoading) jobSec smartTerrainName isLoading
        simp [ht, hj, hpres.1, hpres.2, htimes.1, htimes.2]

/-- C5: on every completed non-NIL-sentinel transition, the trace is the
archetype-appropriate generic reset, then the target scheme's activate,
then possibly the stalker repositioning, then the activation event: every
generic-layer effect precedes the scheme's activate, and the activation
event is emitted only after the activate, with no emission or further
activate in between. -/
theorem generic_reset_before_activate_before_emit {C : Type} (env : SchemeEnv)
    (ini : IniFile C) (st : IRegistryObjectState) (s : TSection)
    (smartTerrainName : Option TName) (isLoading : Bool) (hnil : s ≠ NIL)
    (h : (activateSchemeBySection env ini st (some s) smartTerrainName isLoading).error = none) :
    ∃ scheme mid,
      env.schemeFromSection s = some scheme ∧
      (activateSchemeBySection env ini st (some s) smartTerrainName isLoading).events
        = resetObjectGenericSchemesOnSectionSwitch st.schemeType env.isBloodsucker scheme s
          ++ [Effect.activateScheme scheme s smartTerrainName]
          ++ mid
          ++ [Effect.emitActivation scheme isLoading] ∧
      (resetObjectGenericSchemesOnSectionSwitch st.schemeType env.isBloodsucker scheme s).all
        Effect.isGenericLayer = true ∧
      mid.all (fun e => !e.isEmit && !e.isSchemeActivate) = true := by
  have hst := stampActivationTime_preserves env st isLoading
  unfold activateSchemeBySection at h ⊢
  simp only [hnil, if_false] at h ⊢
  obtain ⟨scheme, hs, _, _, _, hevents⟩ :=
    activateResolvedSection_ok_shape env ini _ s smartTerrainName isLoading h
  refine ⟨scheme, if st.schemeType = ESchemeType.STALKER then [Effect.sendToVertex] else [],
    hs, ?_, resetGeneric_all_genericLayer _ _ _ _, ?_⟩
  · rw [hevents, hst.1]
  · by_cases hty : st.schemeType = ESchemeType.STALKER <;>
      simp [hty, Effect.isEmit, Effect.isSchemeActivate]

/-- Witness for C5: the completed transition of the fixture to `patrol`. -/
theorem generic_reset_before_activate_witness :
    ∃ scheme mid,
      envA.schemeFromSection "patrol" = some scheme ∧
      (activateSchemeBySection envA iniA stA (some "patrol") none false).events
        = resetObjectGenericSchemesOnSectionSwitch stA.schemeType envA.isBloodsucker scheme "patrol"
          ++ [Effect.activateScheme scheme "patrol" none]
          ++ mid
          ++ [Effect.emitActivation scheme false] ∧
      (resetObjectGenericSchemesOnSectionSwitch stA.schemeType envA.isBloodsucker scheme "patrol").all
        Effect.isGenericLayer = true ∧
      mid.all (fun e => !e.isEmit && !e.isSchemeActivate) = true :=
  generic_reset_before_activate_before_emit envA iniA stA "patrol" none false
    (by decide) (by decide)

/-- C7: re-activating the section that is already active still performs the
full transition: the call completes, its trace is the full generic reset
followed by the target scheme's activate, the stalker repositioning and the
activation event, and the trace is identical to the one produced from a
state with no active section at all (no comparison against the current
activeSection short-circuits the call). -/
theorem reactivating_active_section_not_noop {C : Type} (env : SchemeEnv)
    (ini : IniFile C) (st : IRegistryObjectState) (s : TSection) (scheme : EScheme)
    (smartTerrainName : Option TName) (isLoading : Bool)
    (_hactive : st.activeSection = some s) (hnil : s ≠ NIL)
    (hscheme : env.schemeFromSection s = some scheme)
    (hexist : ini.section_exist s = true)
    (hreg : env.registeredSchemes scheme = true) :
    (activateSchemeBySection env ini st (some s) smartTerrainName isLoading).error = none ∧
    (activateSchemeBySection env ini st (some s) smartTerrainName isLoading).events
      = resetObjectGenericSchemesOnSectionSwitch st.schemeType env.isBloodsucker scheme s
        ++ [Effect.activateScheme scheme s smartTerrainName]
        ++ (if st.schemeType = ESchemeType.STALKER then [Effect.sendToVertex] else [])
        ++ [Effect.emitActivation scheme isLoading] ∧
    (activateSchemeBySection env ini st (some s) smartTerrainName isLoading).events
      = (activateSchemeBySection env ini
          { st with activeSection := none, activeScheme := none }
          (some s) smartTerrainName isLoading).events := by
  have hst := stampActivationTime_preserves env st isLoading
  have hst2 := stampActivationTime_preserves env
    { st with activeSection := none, activeScheme := none } isLoading
  unfold activateSchemeBySection
  simp only [hnil, if_false]
  unfold activateResolvedSection
  simp only [hscheme, hexist, if_true, hreg]
  refine ⟨?_, ?_, ?_⟩ <;> cases isLoading <;> simp [stampActivationTime]

/-- Witness for C7: stB is already bound to `patrol`; re-activating
`patrol` produces the full trace. -/
theorem reactivating_active_section_witness :
    (activateSchemeBySection envA iniA stB (some "patrol") none false).error = none ∧
    (activateSchemeBySection envA iniA stB (some "patrol") none false).events
      = resetObjectGenericSchemesOnSectionSwitch stB.schemeType envA.isBloodsucker
          EScheme.MEET "patrol"
        ++ [Effect.activateScheme EScheme.MEET "patrol" none]
        ++ (if stB.schemeType = ESchemeType.STALKER then [Effect.sendToVertex] else [])
        ++ [Effect.emitActivation EScheme.MEET false] ∧
    (activateSchemeBySection envA iniA stB (some "patrol") none false).events
      = (activateSchemeBySection envA iniA
          { stB with activeSection := none, activeScheme := none }
          (some "patrol") none false).events :=
  reactivating_active_section_not_noop envA iniA stB "patrol" EScheme.MEET none false
    (by decide) (by decide) (by decide) (by decide) (by decide)

/-- C4 counterexample: for a Humanoid (stalker) actor whose configuration
section `smart_terrain_job_guard` exists but has no `active` field, and who
is bound to no terrain, section resolution does not fall to the terrain-job
fallback and activation does not fail: getSectionToActivate yields the NIL
sentinel, and activating it completes without any assertion (in particular
without the not-in-smart-terrain assertion), leaving the actor unbound. -/
theorem no_active_field_deactivates_counterexample :
    (getSectionToActivate iniC pickNone none "smart_terrain_job_guard").1 = Except.ok NIL ∧
    (activateSchemeBySection envA iniC stA (some NIL) none false).error = none ∧
    (activateSchemeBySection envA iniC stA (some NIL) none false).state.activeSection = none ∧
    envA.terrain = none ∧ stA.schemeType = ESchemeType.STALKER := by
  refine ⟨rfl, ?_, ?_, rfl, rfl⟩ <;> decide

/-- C4 amended: the terrain-job fallback is reached only when
activateSchemeBySection is given a null (absent) section, not when the
configuration lacks an `active` field.  A section without `active` resolves
to the NIL sentinel (and activating NIL deactivates the actor without
consulting terrain); with a null section, an actor bound to no terrain
fails fatally with the not-in-smart-terrain assertion, and a bound actor's
terrain job supplies the section that is then activated. -/
theorem terrain_fallback_on_null_section {C : Type} (env : SchemeEnv) (ini : IniFile C)
    (st : IRegistryObjectState) (pick : C → Option TSection)
    (smartTerrainName : Option TName) (isLoading : Bool) (d : TSection) :
    (ini.section_exist d = true → ini.activeField d = none →
      (getSectionToActivate ini pick none d).1 = Except.ok NIL) ∧
    (env.terrain = none →
      (activateSchemeBySection env ini st none smartTerrainName isLoading).error
        = some ActivateError.notInSmartTerrain) ∧
    (∀ t s, env.terrain = some t → t.jobSection = some s →
      activateSchemeBySection env ini st none smartTerrainName isLoading
        = activateResolvedSection env ini (stampActivationTime env st isLoading)
            s smartTerrainName isLoading) := by
  refine ⟨?_, ?_, ?_⟩
  · intro hex hact
    simp [getSectionToActivate, readActiveSection, hex, hact]
  · intro ht
    simp [activateSchemeBySection, ht]
  · intro t s ht hj
    simp [activateSchemeBySection, ht, hj]

/-- Witness for the amended C4: the three behaviours at concrete inputs —
a section without `active` resolves to NIL; a null section with no terrain
raises the not-in-smart-terrain assertion; a null section with a terrain
job `patrol` activates `patrol`. -/
theorem terrain_fallback_on_null_section_witness :
    (getSectionToActivate iniC pickNone none "smart_terrain_job_guard").1 = Except.ok NIL ∧
    (activateSchemeBySection envA iniA stA none none false).error
      = some ActivateError.notInSmartTerrain ∧
    activateSchemeBySection envB iniA stA none none false
      = activateResolvedSection envB iniA (stampActivationTime envB stA false)
          "patrol" none false :=
  ⟨(terrain_fallback_on_null_section envA iniC stA pickNone none false
      "smart_terrain_job_guard").1 (by decide) rfl,
   (terrain_fallback_on_null_section envA iniA stA pickNone none false "x").2.1 rfl,
   (terrain_fallback_on_null_section envB iniA stA pickNone none false "x").2.2
     { jobSection := some "patrol" } "patrol" rfl rfl⟩

/-- C9: in the stalker branch of the base-scheme enable step, the optional
`info` and `on_hit` slots may be absent without failure (their activation
and initialization are simply skipped from the trace), while a missing
structurally required slot (`on_combat`, or `wounded` with `on_combat`
present) halts with the corresponding requiredSlotMissing error. -/
theorem base_schemes_optional_vs_required {C : Type} (ini : IniFile C) (L : TSection) :
    (∀ c w m dth,
      ini.stringField L "on_combat" = some c →
      ini.stringField L "wounded" = some w →
      ini.stringField L "meet" = some m →
      ini.stringField L "on_death" = some dth →
      ini.stringField L "info" = none →
      ini.stringField L "on_hit" = none →
      enableObjectBaseSchemes ini ESchemeType.STALKER L
        = Except.ok
            [Effect.activateBase EScheme.DANGER (some "danger"),
             Effect.activateBase EScheme.GATHER_ITEMS (some "gather_items"),
             Effect.activateBase EScheme.COMBAT (some c),
             Effect.setInvulnerability,
             Effect.activateBase EScheme.WOUNDED (some w),
             Effect.activateBase EScheme.ABUSE (some L),
             Effect.activateBase EScheme.HELP_WOUNDED none,
             Effect.activateBase EScheme.CORPSE_DETECTION none,
             Effect.activateBase EScheme.MEET (some m),
             Effect.activateBase EScheme.DEATH (some dth),
             Effect.activateBase EScheme.COMBAT_IGNORE none,
             Effect.activateBase EScheme.REACH_TASK none]) ∧
    (ini.stringField L "on_combat" = none →
      enableObjectBaseSchemes ini ESchemeType.STALKER L
        = Except.error (EnableError.requiredSlotMissing "on_combat")) ∧
    (∀ c, ini.stringField L "on_combat" = some c →
      ini.stringField L "wounded" = none →
      enableObjectBaseSchemes ini ESchemeType.STALKER L
        = Except.error (EnableError.requiredSlotMissing "wounded")) := by
  refine ⟨?_, ?_, ?_⟩
  · intro c w m dth hc hw hm hd hi hh
    simp only [enableObjectBaseSchemes, activateRequiredSlot, hc, hw, hm, hd, hi, hh]
    rfl
  · intro hc
    simp only [enableObjectBaseSchemes, activateRequiredSlot, hc]
    rfl
  · intro c hc hw
    simp only [enableObjectBaseSchemes, activateRequiredSlot, hc, hw]
    rfl

/-- A stalker logic section with all required slots configured and the
optional info / on_hit slots absent. -/
def iniS1 : IniFile Unit :=
  { sections := ["logic"],
    activeField := fun _ => none,
    stringField := fun sec f =>
      if sec = "logic" then
        if f = "on_combat" then some "combat_s"
        else if f = "wounded" then some "wounded_s"
        else if f = "meet" then some "meet_s"
        else if f = "on_death" then some "death_s"
        else none
      else none }

/-- A stalker logic section with no configured slots at all. -/
def iniS2 : IniFile Unit :=
  { sections := ["logic"],
    activeField := fun _ => none,
    stringField := fun _ _ => none }

/-- A stalker logic section with only on_combat configured. -/
def iniS3 : IniFile Unit :=
  { sections := ["logic"],
    activeField := fun _ => none,
    stringField := fun _ f => if f = "on_combat" then some "combat_s" else none }

/-- Witness for C9: the three behaviours at concrete ini files. -/
theorem base_schemes_optional_vs_required_witness :
    enableObjectBaseSchemes iniS1 ESchemeType.STALKER "logic"
      = Except.ok
          [Effect.activateBase EScheme.DANGER (some "danger"),
           Effect.activateBase EScheme.GATHER_ITEMS (some "gather_items"),
           Effect.activateBase EScheme.COMBAT (some "combat_s"),
           Effect.setInvulnerability,
           Effect.activateBase EScheme.WOUNDED (some "wounded_s"),
           Effect.activateBase EScheme.ABUSE (some "logic"),
           Effect.activateBase EScheme.HELP_WOUNDED none,
           Effect.activateBase EScheme.CORPSE_DETECTION none,
           Effect.activateBase EScheme.MEET (some "meet_s"),
           Effect.activateBase EScheme.DEATH (some "death_s"),
           Effect.activateBase EScheme.COMBAT_IGNORE none,
           Effect.activateBase EScheme.REACH_TASK none] ∧
    enableObjectBaseSchemes iniS2 ESchemeType.STALKER "logic"
      = Except.error (EnableError.requiredSlotMissing "on_combat") ∧
    enableObjectBaseSchemes iniS3 ESchemeType.STALKER "logic"
      = Except.error (EnableError.requiredSlotMissing "wounded") :=
  ⟨(base_schemes_optional_vs_required iniS1 "logic").1 "combat_s" "wounded_s" "meet_s"
      "death_s" rfl rfl rfl rfl rfl rfl,
   (base_schemes_optional_vs_required iniS2 "logic").2.1 rfl,
   (base_schemes_optional_vs_required iniS3 "logic").2.2 "combat_s" rfl rfl⟩

end SchemeLogic
